import Mathlib

/-!
Verification of the solar-farm dashboard repository (`app/main.py`, `app/utils.py`).

The data model is a shallow embedding: a dataframe is a `Table` of a header
(column names) and rows of optional rational cells (`none` models a
missing/NaN value).  UI calls (`st.error`, `st.subheader`, chart renderers,
file writes) are modelled as explicit event lists; the outcome of external
calls that can raise (`pd.read_csv`, a chart renderer, `zipfile.ZipFile`) is
an explicit parameter, so a `try/except` in the script becomes a `match` on
that outcome.

`clean_dataset` and `detect_outliers` are imported by `app/main.py` from a
`utils` module whose visible part does not define them; those two are
modelled from the spec (their doc comments say so), everything else is
translated from the source files.
-/

namespace SolarApp

/-- A row of a dataframe: one optional rational value per column position. -/
abbrev Row : Type := List (Option Rat)

/-- A dataframe: named columns over a sequence of rows. -/
structure Table where
  header : List String
  rows : List Row
deriving DecidableEq

/-- The empty dataframe `pd.DataFrame()`: zero rows and zero columns. -/
def emptyTable : Table := ⟨[], []⟩

/-- The cell of a row at column position `j`; out-of-range reads are missing. -/
def cell (r : Row) (j : Nat) : Option Rat := (r.get? j).getD none

/-- Python `str.lower` on the ASCII dataset names used here. -/
def pyLower (s : String) : String := ⟨s.data.map Char.toLower⟩

/-- Python `str.replace(' ', '_')`. -/
def pySpaceToUnderscore (s : String) : String :=
  ⟨s.data.map (fun ch => if ch = ' ' then '_' else ch)⟩

/-- Python `os.path.join(a, b)` (posix): `b` if `b` is absolute, otherwise
`a + b` when `a` is empty or ends with a separator, otherwise `a + "/" + b`. -/
def pyJoin (a b : String) : String :=
  if b.data.head? == some '/' then b
  else if a == "" || a.data.getLast? == some '/' then a ++ b
  else a ++ "/" ++ b

/-- `DATA_FOLDER` from `app/main.py`. -/
def DATA_FOLDER : String := "data/original_datasets/"

/-- `CLEANED_FOLDER` from `app/main.py`. -/
def CLEANED_FOLDER : String := "data/cleaned_datasets/"

/-- `DATASETS` from `app/main.py`: logical name to CSV path. -/
def DATASETS : List (String × String) :=
  [("Benin Malanville", pyJoin DATA_FOLDER "benin-malanville.csv"),
   ("Sierra Leone Bumbuna", pyJoin DATA_FOLDER "sierraleone-bumbuna.csv"),
   ("Togo Dapaong QC", pyJoin DATA_FOLDER "togo-dapaong_qc.csv")]

/-- Outcome of the external call `pd.read_csv(data_path)`: either the parsed
table or the raised exception's message. -/
inductive ReadResult
  | ok (t : Table)
  | err (msg : String)

/-- `load_data` from `app/main.py`: returns the parsed table on success; on
any exception returns the empty dataframe together with the `st.error`
message mentioning the path and the exception text.  It is a total function:
the `except` branch never re-raises. -/
def load_data (data_path : String) (r : ReadResult) : Table × List String :=
  match r with
  | .ok t => (t, [])
  | .err e => (emptyTable, ["Failed to load data from " ++ data_path ++ ": " ++ e])

/-- A row is complete when every column position of the header holds a value. -/
def rowComplete (ncols : Nat) (r : Row) : Bool :=
  (List.range ncols).all (fun j => (cell r j).isSome)

/-- Modelled from the spec: `clean_dataset` is imported from `utils` but its
definition is not in the visible source.  Per the spec the cleaner handles
missing values so that every column EDA reports on has zero missing values;
the drop strategy is modelled: rows with any missing cell are removed, the
column set is unchanged. -/
def clean_dataset (d : Table) : Table :=
  ⟨d.header, d.rows.filter (rowComplete d.header.length)⟩

/-- Number of missing values in column position `j`, i.e. `df.isnull().sum()`
for that column. -/
def missingCount (d : Table) (j : Nat) : Nat :=
  (d.rows.filter (fun r => (cell r j).isNone)).length

/-- The derived output path from `load_and_clean_all_datasets`:
`os.path.join(CLEANED_FOLDER, name.lower().replace(' ', '_') + "_cleaned.csv")`. -/
def cleanedPath (name : String) : String :=
  pyJoin CLEANED_FOLDER (pySpaceToUnderscore (pyLower name) ++ "_cleaned.csv")

/-- The spec's wording for the output path: the configured output directory,
then the lowercased space-to-underscore name, then the `_cleaned.csv` suffix. -/
def specCleanedPath (name : String) : String :=
  CLEANED_FOLDER ++ (pySpaceToUnderscore (pyLower name) ++ "_cleaned.csv")

/-- Result of `load_and_clean_all_datasets` from `app/main.py`, together with
its side effects: the `st.error` messages emitted by failed loads and the
files written by `clean_dataset`. -/
structure LoadCleanResult where
  cleaned_data : List (String × Table)
  uncleaned_data : List (String × Table)
  ui_errors : List String
  writes : List (String × Table)

/-- `load_and_clean_all_datasets` from `app/main.py`: for each configured
dataset, load the raw table, record it, and clean it to the derived path.
The `read` parameter is the outcome of `pd.read_csv` at each path. -/
def load_and_clean_all_datasets (read : String → ReadResult) : LoadCleanResult where
  cleaned_data := DATASETS.map (fun np => (np.1, clean_dataset (load_data np.2 (read np.2)).1))
  uncleaned_data := DATASETS.map (fun np => (np.1, (load_data np.2 (read np.2)).1))
  ui_errors := DATASETS.flatMap (fun np => (load_data np.2 (read np.2)).2)
  writes := DATASETS.map (fun np => (cleanedPath np.1, clean_dataset (load_data np.2 (read np.2)).1))

/-- `selected_dataset` from `app/main.py` line 49:
`all_uncleaned_data.get(selected_dataset_name, pd.DataFrame())`. -/
def selected_dataset (read : String → ReadResult) (name : String) : Table :=
  ((load_and_clean_all_datasets read).uncleaned_data.lookup name).getD emptyTable

/-- `df[cols]` column projection: keeps all rows, selects the named columns. -/
def selectCols (d : Table) (cs : List String) : Table :=
  ⟨cs, d.rows.map (fun r => cs.map (fun c =>
    match d.header.indexOf? c with
    | some j => cell r j
    | none => none))⟩

/-- Mean of a list of rationals (`0` on the empty list, by `Rat` division). -/
def ratMean (xs : List Rat) : Rat := xs.sum / (xs.length : Rat)

/-- Population variance of a list of rationals. -/
def ratVar (xs : List Rat) : Rat :=
  (xs.map (fun x => (x - ratMean xs) ^ 2)).sum / (xs.length : Rat)

/-- The cell of table `d` at row `i`, column named `c`. -/
def cellAt (d : Table) (i : Nat) (c : String) : Option Rat :=
  match d.header.indexOf? c, d.rows.get? i with
  | some j, some r => cell r j
  | _, _ => none

/-- The present (non-missing) values of column `c` of `d`, in row order. -/
def colPresent (d : Table) (c : String) : List Rat :=
  (List.range d.rows.length).filterMap (fun i => cellAt d i c)

/-- Modelled from the spec: the per-cell outlier test of the missing
`detect_outliers`.  A cell is an outlier when its z-score against its
column's present values exceeds 3; the comparison is done on squares
(`(x - mean)^2 > 3^2 * variance`) so it is exact over `Rat`.  A missing
cell is never an outlier, and a zero-variance column flags no cell. -/
def cellOutlier (d : Table) (c : String) (i : Nat) : Bool :=
  match cellAt d i c with
  | some x =>
      decide (ratVar (colPresent d c) ≠ 0) &&
      decide ((x - ratMean (colPresent d c)) ^ 2 > (3 : Rat) ^ 2 * ratVar (colPresent d c))
  | none => false

/-- Modelled from the spec: `detect_outliers(dataset, columns)` is imported
from `utils` but its definition is not in the visible source.  Per the spec
it flags a row when any of its selected-column scores exceeds the fixed
threshold; the result is the list of flagged row indices. -/
def detect_outliers (d : Table) (cols : List String) : List Nat :=
  (List.range d.rows.length).filter (fun i => cols.any (fun c => cellOutlier d c i))

/-- Modelled from the spec: the call boundary of `detect_outliers` as the
dashboard invokes it — explicit state passing returns the table the caller
holds after the call next to the computed outlier set.  The spec fixes the
function to be pure (no mutation, no side effects). -/
def detect_outliers_call (d : Table) (cols : List String) : Table × List Nat :=
  (d, detect_outliers d cols)

/-- The chart/analysis steps of the Visualizations and Advanced Analysis tabs,
in source order. -/
inductive Chart
  | heatmap
  | timeSeries
  | windRose
  | windDir
  | outliers
  | tempHumidity
  | moduleTemp
  | pairPlot
deriving DecidableEq

/-- The column-presence guard of each step, from `app/main.py`.  The heatmap
call has no guard; the outlier step requires all of `GHI`, `DNI`, `DHI`;
the pair plot runs when any of its analysis columns is present. -/
def chartGuard (cols : List String) : Chart → Bool
  | .heatmap => true
  | .timeSeries => cols.contains "Timestamp"
  | .windRose => cols.contains "WD" && cols.contains "WS"
  | .windDir => cols.contains "WD"
  | .outliers => ["GHI", "DNI", "DHI"].all cols.contains
  | .tempHumidity => cols.contains "Tamb" && cols.contains "RH"
  | .moduleTemp => ["TModA", "TModB", "Tamb"].all cols.contains
  | .pairPlot => ["GHI", "DNI", "DHI", "Tamb", "RH", "WS"].any cols.contains

/-- The `st.error` prefix of each step's `except` branch, from `app/main.py`. -/
def chartErrLabel : Chart → String
  | .heatmap => "Error plotting correlation heatmap: "
  | .timeSeries => "Error plotting time series trends: "
  | .windRose => "Error plotting wind rose: "
  | .windDir => "Error plotting wind direction distribution: "
  | .outliers => "Error detecting outliers: "
  | .tempHumidity => "Error plotting temperature vs. humidity: "
  | .moduleTemp => "Error plotting temperature trends: "
  | .pairPlot => "Error plotting pair plot: "

/-- UI events of the two chart tabs: a subheader, a completed chart render,
or a caught per-chart failure with the exception text. -/
inductive VizEvent
  | subheader (c : Chart)
  | render (c : Chart)
  | chartError (c : Chart) (msg : String)
deriving DecidableEq

/-- The text an event displays; a `chartError` shows the step's `st.error`
label followed by the exception text. -/
def renderEvent : VizEvent → String
  | .subheader _ => ""
  | .render _ => ""
  | .chartError c m => chartErrLabel c ++ m

/-- One `try/except` block around a chart call: on success the chart renders;
on an exception the scoped error event for that chart is emitted instead. -/
def tryChart (c : Chart) (o : Chart → Except String Unit) : List VizEvent :=
  match o c with
  | .ok _ => [.render c]
  | .error e => [.chartError c e]

/-- A guarded chart block: subheader plus guarded `try/except` call, emitted
only when the column guard holds. -/
def chartSec (g : Bool) (c : Chart) (o : Chart → Except String Unit) : List VizEvent :=
  if g then VizEvent.subheader c :: tryChart c o else []

/-- The outlier block of the Advanced Analysis tab: its subheader is shown
unconditionally, the detection itself is guarded by column presence. -/
def outlierSec (g : Bool) (o : Chart → Except String Unit) : List VizEvent :=
  VizEvent.subheader Chart.outliers :: (if g then tryChart Chart.outliers o else [])

/-- The Visualizations tab of `app/main.py`, with `o` the outcome of each
chart renderer on the selected dataset. -/
def tab_visuals (cols : List String) (o : Chart → Except String Unit) : List VizEvent :=
  chartSec (chartGuard cols .heatmap) .heatmap o
    ++ chartSec (chartGuard cols .timeSeries) .timeSeries o
    ++ chartSec (chartGuard cols .windRose) .windRose o
    ++ chartSec (chartGuard cols .windDir) .windDir o

/-- The Advanced Analysis tab of `app/main.py`. -/
def tab_advanced (cols : List String) (o : Chart → Except String Unit) : List VizEvent :=
  outlierSec (chartGuard cols .outliers) o
    ++ chartSec (chartGuard cols .tempHumidity) .tempHumidity o
    ++ chartSec (chartGuard cols .moduleTemp) .moduleTemp o
    ++ chartSec (chartGuard cols .pairPlot) .pairPlot o

/-- Both chart tabs run in order for the selected dataset's columns. -/
def runApp (cols : List String) (o : Chart → Except String Unit) : List VizEvent :=
  tab_visuals cols o ++ tab_advanced cols o

/-- The chart a UI event belongs to when the event is an attempt of a chart
call (a completed render or a caught failure). -/
def attemptOf : VizEvent → Option Chart
  | .render c => some c
  | .chartError c _ => some c
  | .subheader _ => none

/-- The charts attempted during a run, in order. -/
def attempts (evs : List VizEvent) : List Chart := evs.filterMap attemptOf

/-- The caught failure messages of chart `c` during a run. -/
def chartErrorsOf (c : Chart) (evs : List VizEvent) : List String :=
  evs.filterMap (fun ev =>
    match ev with
    | .chartError c2 m => if c2 = c then some m else none
    | _ => none)

/-- `outlier_columns` from `app/main.py`. -/
def outlier_columns : List String := ["GHI", "DNI", "DHI"]

/-- What the dashboard's displayed views consume for a selection, plus the
files written as a side effect of the eager clean step. -/
structure MainRun where
  edaTable : Table
  chartsTable : Table
  outlierInput : Table
  writes : List (String × Table)

/-- The main workflow of `app/main.py`: all views (EDA summary, the chart
tabs, and the outlier detection input `valid_data = selected_dataset[outlier_columns]`)
consume `selected_dataset`; the cleaned tables flow only into the writes. -/
def main_run (read : String → ReadResult) (name : String) : MainRun where
  edaTable := selected_dataset read name
  chartsTable := selected_dataset read name
  outlierInput := selectCols (selected_dataset read name) outlier_columns
  writes := (load_and_clean_all_datasets read).writes

/-- An archive: named entries with contents, as `zipfile.ZipFile` exposes it. -/
structure Archive where
  entries : List (String × String)
deriving DecidableEq

/-- `ZipFile.extractall(output_data_path)`: every entry is written under the
destination directory. -/
def extractall (dest : String) (z : Archive) : List (String × String) :=
  z.entries.map (fun en => (pyJoin dest en.1, en.2))

/-- `extract_datasets` from `app/utils.py`: the `opened` parameter is the
outcome of `zipfile.ZipFile(input_data_path, 'r')` (and of the extraction it
feeds).  There is no `try/except`, so an error is returned unchanged; on
success all entries are extracted and the completion message is printed. -/
def extract_datasets (input_data_path output_data_path : String)
    (opened : Except String Archive) : Except String (List (String × String) × String) :=
  match opened with
  | .ok z => .ok (extractall output_data_path z,
      "Extracted " ++ input_data_path ++ " to " ++ output_data_path)
  | .error e => .error e

/-- C1: for every path and every outcome of the underlying read, `load_data`
returns normally (it is a total function); on a failed read it returns the
empty table — zero columns and zero rows — and surfaces the descriptive
error message naming the path and the exception, and on a successful read it
passes the parsed table through with no error. -/
theorem load_data_failure_empty (data_path emsg : String) (t : Table) :
    (load_data data_path (ReadResult.err emsg)).1.header.length = 0 ∧
    (load_data data_path (ReadResult.err emsg)).1.rows.length = 0 ∧
    (load_data data_path (ReadResult.err emsg)).2 =
      ["Failed to load data from " ++ data_path ++ ": " ++ emsg] ∧
    load_data data_path (ReadResult.ok t) = (t, []) :=
  ⟨rfl, rfl, rfl, rfl⟩

/-- C3: after `clean_dataset`, every column the EDA summaries report on
(every column position of the header) has zero missing values. -/
theorem clean_dataset_no_missing (d : Table) (j : Nat) (hj : j < d.header.length) :
    missingCount (clean_dataset d) j = 0 := by
  unfold missingCount clean_dataset
  rw [List.length_eq_zero, List.filter_eq_nil_iff]
  intro r hr
  have hc : rowComplete d.header.length r = true := List.of_mem_filter hr
  have hs : (cell r j).isSome = true :=
    List.all_eq_true.mp hc j (List.mem_range.mpr hj)
  rcases Option.isSome_iff_exists.mp hs with ⟨x, hx⟩
  simp [hx]

/-- Witness for C3 at a concrete two-row table with one incomplete row. -/
theorem clean_dataset_no_missing_witness :
    0 < (Table.mk ["GHI"] [[some 1], [none]]).header.length ∧
    missingCount (clean_dataset (Table.mk ["GHI"] [[some 1], [none]])) 0 = 0 :=
  ⟨by decide, clean_dataset_no_missing (Table.mk ["GHI"] [[some 1], [none]]) 0 (by decide)⟩

/-- C7: `clean_dataset` is idempotent — cleaning an already-cleaned table is
the identity, so in particular no per-column missing count changes further. -/
theorem clean_dataset_idempotent (d : Table) :
    clean_dataset (clean_dataset d) = clean_dataset d ∧
    ∀ j, missingCount (clean_dataset (clean_dataset d)) j = missingCount (clean_dataset d) j := by
  have h : clean_dataset (clean_dataset d) = clean_dataset d := by
    unfold clean_dataset
    simp [List.filter_filter]
  exact ⟨h, fun j => by rw [h]⟩

/-- C6: the call boundary of `detect_outliers` leaves the caller's table
value-equal to what it was before the call, and its only output is the
computed outlier set. -/
theorem detect_outliers_no_mutation (d : Table) (cols : List String) :
    (detect_outliers_call d cols).1 = d ∧
    (detect_outliers_call d cols).2 = detect_outliers d cols :=
  ⟨rfl, rfl⟩

/-- C9: `extract_datasets` extracts every archive entry into the destination
directory and reports completion on success, and — having no failure
recovery — returns any extraction error unchanged to its caller. -/
theorem extract_datasets_propagates (inp out e : String) (z : Archive) :
    extract_datasets inp out (Except.ok z) =
      Except.ok (z.entries.map (fun en => (pyJoin out en.1, en.2)),
        "Extracted " ++ inp ++ " to " ++ out) ∧
    extract_datasets inp out (Except.error e) = Except.error e :=
  ⟨rfl, rfl⟩

/-- The mean of a nonempty constant list is the constant. -/
theorem ratMean_const (xs : List Rat) (v : Rat) (hne : xs ≠ [])
    (h : ∀ x ∈ xs, x = v) : ratMean xs = v := by
  have hsum : xs.sum = xs.length • v := List.sum_eq_card_nsmul xs v h
  have hlen : (xs.length : Rat) ≠ 0 := by
    exact_mod_cast fun h0 => hne (List.length_eq_zero.mp h0)
  rw [ratMean, hsum, nsmul_eq_mul]
  exact mul_div_cancel_left₀ v hlen

/-- The variance of a constant list is zero. -/
theorem ratVar_const (xs : List Rat) (v : Rat) (h : ∀ x ∈ xs, x = v) :
    ratVar xs = 0 := by
  rcases eq_or_ne xs [] with rfl | hne
  · simp [ratVar]
  · have hm : ratMean xs = v := ratMean_const xs v hne h
    have hz : ∀ y ∈ xs.map (fun x => (x - ratMean xs) ^ 2), y = 0 := by
      intro y hy
      rcases List.mem_map.mp hy with ⟨x, hx, rfl⟩
      rw [h x hx, hm, sub_self]
      simp
    rw [ratVar, List.sum_eq_zero hz, zero_div]

/-- A zero-variance (constant) column flags no cell. -/
theorem cellOutlier_const (d : Table) (c : String) (v : Rat)
    (h : ∀ x ∈ colPresent d c, x = v) (i : Nat) : cellOutlier d c i = false := by
  cases hcell : cellAt d i c with
  | none => simp [cellOutlier, hcell]
  | some x => simp [cellOutlier, hcell, ratVar_const (colPresent d c) v h]

/-- Dropping an element on which a predicate is false does not change `any`. -/
theorem any_filter_ne (l : List String) (p : String → Bool) (c : String)
    (hc : p c = false) : (l.filter (fun x => x != c)).any p = l.any p := by
  induction l with
  | nil => rfl
  | cons a t ih =>
    by_cases ha : a = c
    · subst ha
      simp [List.filter_cons, List.any_cons, hc, ih]
    · have hb : (a != c) = true := bne_iff_ne.mpr ha
      simp [List.filter_cons, hb, List.any_cons, ih]

/-- C2: `detect_outliers` is total (it never crashes, and its output is a set
of at most rowCount row indices), and on a column whose values are all equal
it flags nothing: removing that column from the selection leaves the outlier
set unchanged, so no row is flagged solely due to the constant column. -/
theorem detect_outliers_constant_col (d : Table) (cols : List String) (c : String)
    (v : Rat) (hconst : ∀ x ∈ colPresent d c, x = v) :
    (detect_outliers d cols).length ≤ d.rows.length ∧
    detect_outliers d (cols.filter (fun c2 => c2 != c)) = detect_outliers d cols := by
  constructor
  · calc (detect_outliers d cols).length
        ≤ (List.range d.rows.length).length := List.length_filter_le _ _
      _ = d.rows.length := List.length_range _
  · unfold detect_outliers
    apply List.filter_congr
    intro i _
    exact any_filter_ne cols (fun c2 => cellOutlier d c2 i) c (cellOutlier_const d c v hconst i)

/-- A concrete three-row table whose `GHI` column is constant. -/
def exTable : Table :=
  ⟨["GHI", "DNI", "DHI"],
   [[some 1, some 2, some 3], [some 1, some 4, some 5], [some 1, some 6, some 7]]⟩

/-- Witness for C2 at `exTable`, whose `GHI` column is constantly `1`. -/
theorem detect_outliers_constant_col_witness :
    (∀ x ∈ colPresent exTable "GHI", x = (1 : Rat)) ∧
    ((detect_outliers exTable ["GHI", "DNI", "DHI"]).length ≤ exTable.rows.length ∧
      detect_outliers exTable (["GHI", "DNI", "DHI"].filter (fun c2 => c2 != "GHI")) =
        detect_outliers exTable ["GHI", "DNI", "DHI"]) :=
  ⟨by decide, detect_outliers_constant_col exTable ["GHI", "DNI", "DHI"] "GHI" 1 (by decide)⟩

/-- C8: the derived cleaned-file path is exactly the configured output
directory followed by the lowercased, space-to-underscore dataset name and
the `_cleaned.csv` suffix (the spec's wording), for every name whose derived
file name is not an absolute path — in particular for every configured
logical dataset name. -/
theorem cleaned_path_spec (name : String)
    (h : ((pySpaceToUnderscore (pyLower name) ++ "_cleaned.csv").data.head? == some '/') = false) :
    cleanedPath name = specCleanedPath name := by
  have h2 : ((CLEANED_FOLDER == "") || (CLEANED_FOLDER.data.getLast? == some '/')) = true := by
    decide
  unfold cleanedPath specCleanedPath pyJoin
  rw [h, h2]
  simp [String.append_assoc]

/-- Witness for C8 at the first configured logical dataset name. -/
theorem cleaned_path_spec_witness :
    (((pySpaceToUnderscore (pyLower "Benin Malanville") ++ "_cleaned.csv").data.head? ==
        some '/') = false) ∧
    cleanedPath "Benin Malanville" = specCleanedPath "Benin Malanville" :=
  ⟨by decide, cleaned_path_spec "Benin Malanville" (by decide)⟩

theorem attempts_append (l1 l2 : List VizEvent) :
    attempts (l1 ++ l2) = attempts l1 ++ attempts l2 :=
  List.filterMap_append l1 l2 attemptOf

theorem attempts_chartSec (g : Bool) (c : Chart) (o : Chart → Except String Unit) :
    attempts (chartSec g c o) = if g then [c] else [] := by
  cases g <;> cases h : o c <;> simp [chartSec, tryChart, attempts, attemptOf, h]

theorem attempts_outlierSec (g : Bool) (o : Chart → Except String Unit) :
    attempts (outlierSec g o) = if g then [Chart.outliers] else [] := by
  cases g <;> cases h : o Chart.outliers <;>
    simp [outlierSec, tryChart, attempts, attemptOf, h]

theorem mem_ite_chart (g : Bool) (x c : Chart) :
    (c ∈ if g then [x] else []) ↔ (g = true ∧ c = x) := by
  cases g <;> simp

/-- A chart is among the attempted ones exactly when its column guard holds:
the outcomes of the other chart calls play no role. -/
theorem mem_attempts_runApp (cols : List String) (o : Chart → Except String Unit)
    (c : Chart) : c ∈ attempts (runApp cols o) ↔ chartGuard cols c = true := by
  simp only [runApp, tab_visuals, tab_advanced, attempts_append, attempts_chartSec,
    attempts_outlierSec, List.mem_append, mem_ite_chart]
  cases c <;> simp [chartGuard]

/-- The attempted-chart sequence does not depend on the chart outcomes at all. -/
theorem attempts_indep (cols : List String) (o o2 : Chart → Except String Unit) :
    attempts (runApp cols o) = attempts (runApp cols o2) := by
  simp only [runApp, tab_visuals, tab_advanced, attempts_append, attempts_chartSec,
    attempts_outlierSec]

theorem chartError_mem_chartSec (g : Bool) (c c2 : Chart) (e : String)
    (o : Chart → Except String Unit) :
    (VizEvent.chartError c e ∈ chartSec g c2 o) ↔
      (g = true ∧ c = c2 ∧ o c2 = Except.error e) := by
  cases g <;> cases h : o c2 <;> simp [chartSec, tryChart, h]
  exact fun _ => eq_comm

theorem chartError_mem_outlierSec (g : Bool) (c : Chart) (e : String)
    (o : Chart → Except String Unit) :
    (VizEvent.chartError c e ∈ outlierSec g o) ↔
      (g = true ∧ c = Chart.outliers ∧ o Chart.outliers = Except.error e) := by
  cases g <;> cases h : o Chart.outliers <;> simp [outlierSec, tryChart, h]
  exact fun _ => eq_comm

/-- A scoped failure event of chart `c` appears exactly when `c`'s guard holds
and its renderer raised that error. -/
theorem chartError_mem_runApp (cols : List String) (o : Chart → Except String Unit)
    (c : Chart) (e : String) :
    VizEvent.chartError c e ∈ runApp cols o ↔
      (chartGuard cols c = true ∧ o c = Except.error e) := by
  simp only [runApp, tab_visuals, tab_advanced, List.mem_append,
    chartError_mem_chartSec, chartError_mem_outlierSec]
  cases c <;> simp [chartGuard]

/-- C4: chart calls are independently fault-isolated — when a guarded chart's
renderer raises, the run still contains the scoped error event for exactly
that chart (displayed as that chart's `st.error` label followed by the
exception text), the sequence of attempted charts is the same as under any
other outcomes (so no other chart is prevented), and the failing chart itself
still counts as attempted. -/
theorem chart_fault_isolation (cols : List String) (o o2 : Chart → Except String Unit)
    (c : Chart) (e : String) (hg : chartGuard cols c = true) (he : o c = Except.error e) :
    VizEvent.chartError c e ∈ runApp cols o ∧
    renderEvent (VizEvent.chartError c e) = chartErrLabel c ++ e ∧
    attempts (runApp cols o) = attempts (runApp cols o2) ∧
    c ∈ attempts (runApp cols o) := by
  refine ⟨(chartError_mem_runApp cols o c e).mpr ⟨hg, he⟩, rfl,
    attempts_indep cols o o2, (mem_attempts_runApp cols o c).mpr hg⟩

/-- The all-successful chart outcome. -/
def exOutcomeOk : Chart → Except String Unit := fun _ => Except.ok ()

/-- A chart outcome where only the time-series renderer raises. -/
def exOutcomeFail : Chart → Except String Unit :=
  fun c => if c = Chart.timeSeries then Except.error "boom" else Except.ok ()

/-- Witness for C4: on a dataset with a `Timestamp` column, a failing
time-series renderer yields its scoped error while the attempted charts are
those of an all-successful run. -/
theorem chart_fault_isolation_witness :
    chartGuard ["Timestamp"] Chart.timeSeries = true ∧
    exOutcomeFail Chart.timeSeries = Except.error "boom" ∧
    (VizEvent.chartError Chart.timeSeries "boom" ∈ runApp ["Timestamp"] exOutcomeFail ∧
      renderEvent (VizEvent.chartError Chart.timeSeries "boom") =
        chartErrLabel Chart.timeSeries ++ "boom" ∧
      attempts (runApp ["Timestamp"] exOutcomeFail) =
        attempts (runApp ["Timestamp"] exOutcomeOk) ∧
      Chart.timeSeries ∈ attempts (runApp ["Timestamp"] exOutcomeFail)) :=
  ⟨by decide, by rfl,
    chart_fault_isolation ["Timestamp"] exOutcomeFail exOutcomeOk Chart.timeSeries "boom"
      (by decide) (by rfl)⟩

/-- C5: an analysis step whose required columns are absent (its guard is
false) is skipped entirely — it is never among the attempted charts and no
error event of it is emitted. -/
theorem column_absence_skipped (cols : List String) (o : Chart → Except String Unit)
    (c : Chart) (hg : chartGuard cols c = false) :
    c ∉ attempts (runApp cols o) ∧ chartErrorsOf c (runApp cols o) = [] := by
  constructor
  · intro hmem
    rw [mem_attempts_runApp, hg] at hmem
    exact absurd hmem (by decide)
  · rw [chartErrorsOf, List.filterMap_eq_nil_iff]
    intro ev hev
    cases ev with
    | subheader c2 => rfl
    | render c2 => rfl
    | chartError c2 m =>
      by_cases hc : c2 = c
      · subst hc
        have hg2 := ((chartError_mem_runApp cols o c2 m).mp hev).1
        rw [hg] at hg2
        exact absurd hg2 (by decide)
      · simp [hc]

/-- Witness for C5: a dataset lacking a `Timestamp` column skips the
time-series chart step without error, even when every renderer would fail. -/
theorem column_absence_skipped_witness :
    chartGuard ["GHI", "DNI", "DHI"] Chart.timeSeries = false ∧
    (Chart.timeSeries ∉ attempts (runApp ["GHI", "DNI", "DHI"] exOutcomeFail) ∧
      chartErrorsOf Chart.timeSeries (runApp ["GHI", "DNI", "DHI"] exOutcomeFail) = []) :=
  ⟨by decide,
    column_absence_skipped ["GHI", "DNI", "DHI"] exOutcomeFail Chart.timeSeries (by decide)⟩

/-- C10: for every configured dataset selection, every displayed view — the
EDA summary table, the tables handed to all chart renderers, and the outlier
detection input (the raw table projected to `outlier_columns`) — is the raw
uncleaned table loaded from the dataset's path, while the cleaned tables flow
only into the disk writes. -/
theorem views_consume_uncleaned (read : String → ReadResult) (name path : String)
    (h : (name, path) ∈ DATASETS) :
    (main_run read name).edaTable = (load_data path (read path)).1 ∧
    (main_run read name).chartsTable = (load_data path (read path)).1 ∧
    (main_run read name).outlierInput =
      selectCols (load_data path (read path)).1 outlier_columns ∧
    (main_run read name).writes =
      DATASETS.map (fun np => (cleanedPath np.1, clean_dataset (load_data np.2 (read np.2)).1)) := by
  have hsel : selected_dataset read name = (load_data path (read path)).1 := by
    simp only [DATASETS, List.mem_cons, List.not_mem_nil, or_false] at h
    rcases h with h | h | h <;>
      (rw [Prod.mk.injEq] at h; obtain ⟨rfl, rfl⟩ := h;
       simp [selected_dataset, load_and_clean_all_datasets, DATASETS, List.lookup])
  exact ⟨hsel, hsel, congrArg (fun t => selectCols t outlier_columns) hsel, rfl⟩

/-- A read oracle under which every configured CSV is missing. -/
def exRead : String → ReadResult := fun _ => ReadResult.err "missing"

/-- Witness for C10 at the first configured dataset under `exRead`. -/
theorem views_consume_uncleaned_witness :
    (("Benin Malanville", pyJoin DATA_FOLDER "benin-malanville.csv") ∈ DATASETS) ∧
    ((main_run exRead "Benin Malanville").edaTable =
        (load_data (pyJoin DATA_FOLDER "benin-malanville.csv")
          (exRead (pyJoin DATA_FOLDER "benin-malanville.csv"))).1 ∧
      (main_run exRead "Benin Malanville").chartsTable =
        (load_data (pyJoin DATA_FOLDER "benin-malanville.csv")
          (exRead (pyJoin DATA_FOLDER "benin-malanville.csv"))).1 ∧
      (main_run exRead "Benin Malanville").outlierInput =
        selectCols (load_data (pyJoin DATA_FOLDER "benin-malanville.csv")
          (exRead (pyJoin DATA_FOLDER "benin-malanville.csv"))).1 outlier_columns ∧
      (main_run exRead "Benin Malanville").writes =
        DATASETS.map (fun np =>
          (cleanedPath np.1, clean_dataset (load_data np.2 (exRead np.2)).1))) :=
  ⟨by decide,
    views_consume_uncleaned exRead "Benin Malanville"
      (pyJoin DATA_FOLDER "benin-malanville.csv") (by decide)⟩

end SolarApp
